import Mathlib

/-!
Verification of the confidence-gated action orchestration core of the
`vgac-agenti` repository, shallowly embedded in Lean 4.

Sources embedded:
* `src/agents/base.py` — `ActionScope`, `CalibrationState`, `ToolResult`,
  `determine_action_scope`.
* `src/agents/calibrator.py` — the in-memory calibration cache,
  `get_calibration_state`, `update_calibration_state`,
  `check_calibration_drift`, `ece_to_calibration_score`,
  `CalibratorAgent._update_profile`.
* `src/agents/actor.py` — `ActorAgent.execute_with_gating`.

Modelling conventions:
* Python floats are modelled as rationals (`ℚ`); the score and ECE
  literals of the source are exact decimal fractions.
* Timestamps (`datetime.now(timezone.utc)`) are modelled as a `Nat`
  clock value passed explicitly to each operation that reads the clock.
* The process-wide mutable dict `_calibration_cache` is modelled as an
  explicit association-list value threaded through the operations;
  dict assignment replaces the binding for the key.
* Pydantic validation (`score` in `[0,1]`, `sample_count ≥ 0`) raises
  `ValidationError` at `CalibrationState` construction; fallible
  construction is modelled with `Except`.
* The abstract tool-invocation collaborator `BaseAgent.invoke_tool`
  (declared to return a `ToolResult` whose `success` field carries
  failure) is a function parameter; `execute_with_gating` additionally
  returns the ordered list of the `invoke_tool` calls it makes, each
  tagged with the source call site that makes it (action execution,
  notification, escalation).
-/

namespace VGAC

/-- `ActionScope` from `base.py`: what actions an agent can take. -/
inductive ActionScope where
  | AUTONOMOUS
  | NOTIFY
  | ESCALATE
deriving DecidableEq, Repr

/-- The string value of each enum member (`str, Enum` in the source). -/
def ActionScope.value : ActionScope → String
  | .AUTONOMOUS => "autonomous"
  | .NOTIFY => "notify"
  | .ESCALATE => "escalate"

/-- `CalibrationState` from `base.py` (pydantic model). -/
structure CalibrationState where
  cluster_id : String
  score : ℚ
  sample_count : Int
  last_updated : Nat
  is_learning_mode : Bool
  recalibration_needed : Bool
deriving DecidableEq, Repr

/-- Pydantic validation of `CalibrationState` construction:
`score` has `ge=0.0, le=1.0`, `sample_count` has `ge=0`; an
out-of-range field raises `ValidationError`. -/
def CalibrationState.make (cluster_id : String) (score : ℚ) (sample_count : Int)
    (last_updated : Nat) (is_learning_mode : Bool) (recalibration_needed : Bool) :
    Except String CalibrationState :=
  if 0 ≤ score ∧ score ≤ 1 ∧ 0 ≤ sample_count then
    .ok ⟨cluster_id, score, sample_count, last_updated, is_learning_mode,
      recalibration_needed⟩
  else
    .error "ValidationError"

/-- `determine_action_scope` from `base.py`. -/
def determine_action_scope (calibration : CalibrationState) : ActionScope :=
  if calibration.sample_count < 50 ∨ calibration.is_learning_mode then
    .ESCALATE
  else if calibration.score > 0.85 then
    .AUTONOMOUS
  else if calibration.score > 0.60 then
    .NOTIFY
  else
    .ESCALATE

/-- The module-level dict `_calibration_cache` of `calibrator.py`,
as an explicit value. -/
abbrev CalibrationCache := List (String × CalibrationState)

/-- Dict assignment `_calibration_cache[cluster_id] = state`: replaces
any previous binding of the key. -/
def cacheInsert (cache : CalibrationCache) (cluster_id : String)
    (state : CalibrationState) : CalibrationCache :=
  (cluster_id, state) :: cache.filter (fun p => p.1 != cluster_id)

/-- `get_calibration_state` from `calibrator.py`: cached state if
present, otherwise a freshly-constructed conservative default stamped
with the current time. -/
def get_calibration_state (cache : CalibrationCache) (now : Nat)
    (cluster_id : String) : CalibrationState :=
  match List.lookup cluster_id cache with
  | some state => state
  | none =>
      ⟨cluster_id, 0.5, 0, now, true, false⟩

/-- `update_calibration_state` from `calibrator.py`: constructs the full
replacement record (recomputing `is_learning_mode = sample_count < 50`,
stamping the current time) and stores it; returns the record and the
updated cache. The Python default for `recalibration_needed` is `false`. -/
def update_calibration_state (cache : CalibrationCache) (now : Nat)
    (cluster_id : String) (score : ℚ) (sample_count : Int)
    (recalibration_needed : Bool) :
    Except String (CalibrationState × CalibrationCache) :=
  match CalibrationState.make cluster_id score sample_count now
      (decide (sample_count < 50)) recalibration_needed with
  | .ok state => .ok (state, cacheInsert cache cluster_id state)
  | .error e => .error e

/-- `DriftStatus` from `calibrator.py`. -/
structure DriftStatus where
  severity : String
  action : String
  message : String
  drift_ratio : ℚ
deriving DecidableEq, Repr

/-- Renders a rational in fixed-point notation with `prec` digits after
the point, approximating Python `{:.1f}`/`{:.2f}` formatting (ties of
the underlying binary float are not modelled; no claim depends on
message text). -/
def pyFormatFixed (prec : Nat) (q : ℚ) : String :=
  let n : Int := round (q * ((10 : ℚ) ^ prec))
  let sign := if n < 0 then "-" else ""
  let m := n.natAbs
  let ip := m / 10 ^ prec
  let fp := m % 10 ^ prec
  let fpStr := toString fp
  let pad := String.mk (List.replicate (prec - fpStr.length) '0')
  if prec = 0 then sign ++ toString ip
  else sign ++ toString ip ++ "." ++ pad ++ fpStr

/-- `check_calibration_drift` from `calibrator.py`. -/
def check_calibration_drift (current_ece : ℚ) (baseline_ece : ℚ) : DriftStatus :=
  let baseline_ece := if baseline_ece ≤ 0 then 0.018 else baseline_ece
  let drift_ratio := current_ece / baseline_ece
  if drift_ratio ≤ 1.5 then
    ⟨"none", "continue", "Calibration stable", drift_ratio⟩
  else if drift_ratio ≤ 2.0 then
    ⟨"moderate", "monitor",
      "ECE increased " ++ pyFormatFixed 1 drift_ratio ++ "× from baseline",
      drift_ratio⟩
  else if drift_ratio ≤ 5.0 then
    ⟨"significant", "reduce_autonomy",
      "ECE increased " ++ pyFormatFixed 1 drift_ratio ++
        "× — reducing autonomous actions",
      drift_ratio⟩
  else
    ⟨"critical", "trigger_recalibration",
      "ECE increased " ++ pyFormatFixed 1 drift_ratio ++
        "× — recalibration required",
      drift_ratio⟩

/-- `ece_to_calibration_score` from `calibrator.py`. -/
def ece_to_calibration_score (ece : ℚ) : ℚ :=
  max 0.0 (min 1.0 (1.0 - ece * 5))

/-- The clamp written in the spec's words (`clamp(x, lo, hi)`), used to
compare the source transform against the spec's formula. -/
def spec_clamp (x lo hi : ℚ) : ℚ :=
  max lo (min hi x)

/-- Python values carried in `dict[str, Any]` payloads (tool parameters,
escalation context, tool-result data). -/
inductive PyVal where
  | str (s : String)
  | num (q : ℚ)
  | int (n : Int)
  | bool (b : Bool)
  | dict (fields : List (String × PyVal))

/-- `ToolResult` from `base.py`: the structured result every tool
invocation returns (`success` carries failure; `error` the message). -/
structure ToolResult where
  success : Bool
  data : Option PyVal
  error : Option String

/-- `CalibrationState.model_dump()`: the record as a Python dict. -/
def CalibrationState.model_dump (st : CalibrationState) : PyVal :=
  .dict [("cluster_id", .str st.cluster_id), ("score", .num st.score),
    ("sample_count", .int st.sample_count), ("last_updated", .int st.last_updated),
    ("is_learning_mode", .bool st.is_learning_mode),
    ("recalibration_needed", .bool st.recalibration_needed)]

/-- One `invoke_tool` call made by `execute_with_gating`, tagged by the
source call site that makes it: executing the requested action,
sending the Slack notification, or escalating to a human. Each tag
carries the exact tool name and parameters passed at that site. -/
inductive GateCall where
  | toolExec (tool_name : String) (parameters : PyVal)
  | notify (tool_name : String) (parameters : PyVal)
  | escalate (tool_name : String) (parameters : PyVal)

/-- `true` exactly on action-execution calls. -/
def GateCall.isToolExec : GateCall → Bool
  | .toolExec _ _ => true
  | _ => false

/-- `true` exactly on escalation calls. -/
def GateCall.isEscalate : GateCall → Bool
  | .escalate _ _ => true
  | _ => false

/-- `true` exactly on notification calls. -/
def GateCall.isNotify : GateCall → Bool
  | .notify _ _ => true
  | _ => false

/-- The result dict of `execute_with_gating`; keys absent from a
branch's dict are `none`. -/
structure GatedOutcome where
  executed : Bool
  reason : Option String
  result : Option ToolResult
  notified_human : Option Bool
  action_scope : String

/-- The payload passed to `tool_escalate_to_human` in the ESCALATE
branch of `execute_with_gating`. -/
def escalation_payload (score : ℚ) (cluster_id action : String)
    (parameters : PyVal) : PyVal :=
  .dict [("reason", .str ("Low calibration (" ++ pyFormatFixed 2 score ++
      ") for cluster " ++ cluster_id)),
    ("context", .dict [("action", .str action), ("parameters", parameters)])]

/-- The payload passed to `tool_send_slack_notification` in the NOTIFY
branch of `execute_with_gating`. -/
def notification_payload (action : String) : PyVal :=
  .dict [("channel", .str "#gpu-alerts"),
    ("message", .str ("⚠️ Action taken with moderate confidence: " ++ action))]

/-- `ActorAgent.execute_with_gating` from `actor.py`. The abstract tool
transport `invoke_tool` is a parameter; the function returns the
outcome dict together with the ordered list of `invoke_tool` calls it
made. The branch structure, payloads and outcome dicts mirror the
source: ESCALATE escalates without executing; NOTIFY executes then
notifies, ignoring the notification's result; AUTONOMOUS executes
without notifying. -/
def execute_with_gating (cache : CalibrationCache) (now : Nat)
    (invoke_tool : String → PyVal → ToolResult)
    (cluster_id action : String) (parameters : PyVal) :
    GatedOutcome × List GateCall :=
  let calibration := get_calibration_state cache now cluster_id
  let scope := determine_action_scope calibration
  if scope = .ESCALATE then
    let payload := escalation_payload calibration.score cluster_id action parameters
    let _ignored := invoke_tool "tool_escalate_to_human" payload
    (⟨false, some "Escalated to human due to low calibration", none, none,
        scope.value⟩,
      [.escalate "tool_escalate_to_human" payload])
  else if scope = .NOTIFY then
    let result := invoke_tool action parameters
    let payload := notification_payload action
    let _ignored := invoke_tool "tool_send_slack_notification" payload
    (⟨true, none, some result, some true, scope.value⟩,
      [.toolExec action parameters, .notify "tool_send_slack_notification" payload])
  else
    let result := invoke_tool action parameters
    (⟨true, none, some result, some false, scope.value⟩,
      [.toolExec action parameters])

/-- The `metrics` dict accepted by `CalibratorAgent._update_profile`;
`none` models an absent key, read with `metrics.get(key, default)`. -/
structure ProfileMetrics where
  ece : Option ℚ
  sample_count : Option Int

/-- `CalibratorAgent._update_profile` from `calibrator.py`: reads `ece`
(default 0.1) and `sample_count` (default 0) from the metrics dict,
converts the ECE to a score, and calls `update_calibration_state`
without passing `recalibration_needed` (so the Python default `False`
is stored). -/
def _update_profile (cache : CalibrationCache) (now : Nat)
    (cluster_id : String) (metrics : ProfileMetrics) :
    Except String (ToolResult × CalibrationCache) :=
  let ece := metrics.ece.getD 0.1
  let sample_count := metrics.sample_count.getD 0
  let score := ece_to_calibration_score ece
  match update_calibration_state cache now cluster_id score sample_count false with
  | .ok (updated, cache2) =>
      .ok (⟨true, some (.dict [("cluster_id", .str cluster_id),
        ("state", updated.model_dump)]), none⟩, cache2)
  | .error e => .error e

/-- Test fixture: a store holding one well-observed, poorly-calibrated
environment (score 0.45, 200 samples — the ESCALATE regime). -/
def escalateTestCache : CalibrationCache :=
  [("unknown-batch", ⟨"unknown-batch", 0.45, 200, 0, false, false⟩)]

/-- Test fixture: a store holding one moderately-calibrated environment
(score 0.72, 500 samples — the NOTIFY regime). -/
def notifyTestCache : CalibrationCache :=
  [("slurm-hpc", ⟨"slurm-hpc", 0.72, 500, 0, false, false⟩)]

/-- Test fixture: a store holding one environment flagged for
recalibration. -/
def flaggedTestCache : CalibrationCache :=
  [("recal-cluster", ⟨"recal-cluster", 0.5, 100, 0, false, true⟩)]

/-- Test collaborator: every tool call succeeds. -/
def constOkCollab : String → PyVal → ToolResult :=
  fun _ _ => ⟨true, none, none⟩

/-- Test collaborator: the Slack notification tool fails, every other
tool succeeds. -/
def notifyFailCollab : String → PyVal → ToolResult :=
  fun tool_name _ =>
    if tool_name = "tool_send_slack_notification" then
      ⟨false, none, some "slack unavailable"⟩
    else
      ⟨true, none, none⟩

end VGAC

namespace VGAC

/-- C2: any state with fewer than 50 samples or in learning mode resolves
to ESCALATE, regardless of its score. -/
theorem determine_action_scope_learning_escalates (st : CalibrationState)
    (h : st.sample_count < 50 ∨ st.is_learning_mode = true) :
    determine_action_scope st = .ESCALATE := by
  unfold determine_action_scope
  rcases h with h | h
  · rw [if_pos (Or.inl h)]
  · rw [if_pos (Or.inr (by simp [h]))]

/-- Witness for C2: a concrete high-score, low-sample state escalates. -/
theorem determine_action_scope_learning_escalates_witness :
    ((⟨"new-cluster", 0.9, 10, 0, true, false⟩ : CalibrationState).sample_count < 50 ∨
      (⟨"new-cluster", 0.9, 10, 0, true, false⟩ : CalibrationState).is_learning_mode = true) ∧
    determine_action_scope ⟨"new-cluster", 0.9, 10, 0, true, false⟩ = .ESCALATE :=
  ⟨Or.inl (by decide),
    determine_action_scope_learning_escalates _ (Or.inl (by decide))⟩

/-- C3: for a state with at least 50 samples and learning mode off, the
scope is AUTONOMOUS iff score > 0.85, NOTIFY iff 0.60 < score ≤ 0.85,
and ESCALATE iff score ≤ 0.60; both boundary scores fall to the more
cautious bucket. -/
theorem determine_action_scope_thresholds (st : CalibrationState)
    (h1 : 50 ≤ st.sample_count) (h2 : st.is_learning_mode = false) :
    (determine_action_scope st = .AUTONOMOUS ↔ st.score > 0.85) ∧
    (determine_action_scope st = .NOTIFY ↔ 0.60 < st.score ∧ st.score ≤ 0.85) ∧
    (determine_action_scope st = .ESCALATE ↔ st.score ≤ 0.60) ∧
    determine_action_scope ⟨"boundary-hi", 0.85, 100, 0, false, false⟩ = .NOTIFY ∧
    determine_action_scope ⟨"boundary-lo", 0.60, 100, 0, false, false⟩ = .ESCALATE := by
  have hguard : ¬ (st.sample_count < 50 ∨ st.is_learning_mode = true) := by
    push_neg
    exact ⟨by omega, by simp [h2]⟩
  refine ⟨?_, ?_, ?_, ?_, ?_⟩
  · unfold determine_action_scope
    rw [if_neg (by simpa using hguard)]
    split_ifs with hA hN
    · simpa using hA
    · simp only [reduceCtorEq, false_iff]
      exact hA
    · simp only [reduceCtorEq, false_iff]
      exact hA
  · unfold determine_action_scope
    rw [if_neg (by simpa using hguard)]
    split_ifs with hA hN
    · simp only [reduceCtorEq, false_iff]
      intro hc
      linarith [hc.2]
    · simp only [true_iff]
      exact ⟨hN, by linarith⟩
    · simp only [reduceCtorEq, false_iff]
      intro hc
      exact hN hc.1
  · unfold determine_action_scope
    rw [if_neg (by simpa using hguard)]
    split_ifs with hA hN
    · simp only [reduceCtorEq, false_iff]
      intro hc
      linarith
    · simp only [reduceCtorEq, false_iff]
      intro hc
      linarith
    · simp only [true_iff]
      linarith [not_lt.mp hN]
  · unfold determine_action_scope
    norm_num
  · unfold determine_action_scope
    norm_num

/-- C4: drift classification — the baseline is replaced by 0.018 when
non-positive, the ratio is current over (substituted) baseline, and the
four severity/action pairs hold exactly on the stated ratio ranges. -/
theorem check_calibration_drift_classification (current_ece baseline_ece : ℚ) :
    (check_calibration_drift current_ece baseline_ece).drift_ratio =
      current_ece / (if baseline_ece ≤ 0 then (0.018 : ℚ) else baseline_ece) ∧
    (((check_calibration_drift current_ece baseline_ece).severity = "none" ∧
        (check_calibration_drift current_ece baseline_ece).action = "continue") ↔
      current_ece / (if baseline_ece ≤ 0 then (0.018 : ℚ) else baseline_ece) ≤ 1.5) ∧
    (((check_calibration_drift current_ece baseline_ece).severity = "moderate" ∧
        (check_calibration_drift current_ece baseline_ece).action = "monitor") ↔
      (1.5 < current_ece / (if baseline_ece ≤ 0 then (0.018 : ℚ) else baseline_ece) ∧
        current_ece / (if baseline_ece ≤ 0 then (0.018 : ℚ) else baseline_ece) ≤ 2.0)) ∧
    (((check_calibration_drift current_ece baseline_ece).severity = "significant" ∧
        (check_calibration_drift current_ece baseline_ece).action = "reduce_autonomy") ↔
      (2.0 < current_ece / (if baseline_ece ≤ 0 then (0.018 : ℚ) else baseline_ece) ∧
        current_ece / (if baseline_ece ≤ 0 then (0.018 : ℚ) else baseline_ece) ≤ 5.0)) ∧
    (((check_calibration_drift current_ece baseline_ece).severity = "critical" ∧
        (check_calibration_drift current_ece baseline_ece).action = "trigger_recalibration") ↔
      5.0 < current_ece / (if baseline_ece ≤ 0 then (0.018 : ℚ) else baseline_ece)) := by
  set b : ℚ := if baseline_ece ≤ 0 then (0.018 : ℚ) else baseline_ece with hb
  set r : ℚ := current_ece / b with hr
  simp only [check_calibration_drift, ← hb, ← hr]
  split_ifs with h1 h2 h3
  · exact ⟨rfl,
      ⟨fun _ => h1, fun _ => ⟨rfl, rfl⟩⟩,
      ⟨fun hc => by simp at hc,
        fun hc => absurd h1 (not_le.mpr hc.1)⟩,
      ⟨fun hc => by simp at hc,
        fun hc => absurd h1 (not_le.mpr (by linarith [hc.1]))⟩,
      ⟨fun hc => by simp at hc,
        fun hc => absurd h1 (not_le.mpr (by linarith))⟩⟩
  · exact ⟨rfl,
      ⟨fun hc => by simp at hc, fun hc => absurd hc h1⟩,
      ⟨fun _ => ⟨not_le.mp h1, h2⟩, fun _ => ⟨rfl, rfl⟩⟩,
      ⟨fun hc => by simp at hc,
        fun hc => absurd h2 (not_le.mpr hc.1)⟩,
      ⟨fun hc => by simp at hc,
        fun hc => absurd h2 (not_le.mpr (by linarith))⟩⟩
  · exact ⟨rfl,
      ⟨fun hc => by simp at hc, fun hc => absurd hc h1⟩,
      ⟨fun hc => by simp at hc,
        fun hc => absurd hc.2 h2⟩,
      ⟨fun _ => ⟨not_le.mp h2, h3⟩, fun _ => ⟨rfl, rfl⟩⟩,
      ⟨fun hc => by simp at hc,
        fun hc => absurd h3 (not_le.mpr hc)⟩⟩
  · exact ⟨rfl,
      ⟨fun hc => by simp at hc,
        fun hc => absurd hc (by linarith [not_le.mp h3])⟩,
      ⟨fun hc => by simp at hc,
        fun hc => absurd hc.2 (by linarith [not_le.mp h3])⟩,
      ⟨fun hc => by simp at hc,
        fun hc => absurd hc.2 h3⟩,
      ⟨fun _ => not_le.mp h3, fun _ => ⟨rfl, rfl⟩⟩⟩

/-- C5: the ECE transform equals the spec's clamp formula, is
monotonically decreasing, maps 0 to 1, maps every ECE ≥ 0.2 to 0, and
maps the 0.018 baseline into (0.90, 0.95). -/
theorem ece_to_calibration_score_spec :
    (∀ ece : ℚ, ece_to_calibration_score ece = spec_clamp (1.0 - ece * 5) 0.0 1.0) ∧
    (∀ e1 e2 : ℚ, e1 ≤ e2 → ece_to_calibration_score e2 ≤ ece_to_calibration_score e1) ∧
    ece_to_calibration_score 0 = 1.0 ∧
    (∀ ece : ℚ, 0.2 ≤ ece → ece_to_calibration_score ece = 0.0) ∧
    0.90 < ece_to_calibration_score 0.018 ∧ ece_to_calibration_score 0.018 < 0.95 := by
  refine ⟨fun ece => rfl, ?_, ?_, ?_, ?_, ?_⟩
  · intro e1 e2 h
    unfold ece_to_calibration_score
    exact max_le_max le_rfl (min_le_min le_rfl (by linarith))
  · unfold ece_to_calibration_score
    norm_num
  · intro ece h
    unfold ece_to_calibration_score
    have hm : min (1.0 : ℚ) (1.0 - ece * 5) ≤ 0.0 :=
      le_trans (min_le_right _ _) (by linarith)
    exact max_eq_left hm
  · unfold ece_to_calibration_score
    rw [show ((0.018 : ℚ) * 5) = 0.09 by norm_num]
    norm_num [min_def, max_def]
  · unfold ece_to_calibration_score
    rw [show ((0.018 : ℚ) * 5) = 0.09 by norm_num]
    norm_num [min_def, max_def]

/-- Witness for C5: monotonicity and full clamping applied at concrete
ECE values. -/
theorem ece_to_calibration_score_spec_witness :
    ((0.05 : ℚ) ≤ 0.1 ∧
      ece_to_calibration_score 0.1 ≤ ece_to_calibration_score 0.05) ∧
    ((0.2 : ℚ) ≤ 0.25 ∧ ece_to_calibration_score 0.25 = 0.0) :=
  ⟨⟨by norm_num, ece_to_calibration_score_spec.2.1 0.05 0.1 (by norm_num)⟩,
   ⟨by norm_num, ece_to_calibration_score_spec.2.2.2.1 0.25 (by norm_num)⟩⟩

/-- C9 counterexample: at `current_ece = -1`, `baseline_ece = 1` the
returned drift ratio is negative, refuting "driftRatio ≥ 0 for every
pair of inputs". -/
theorem check_calibration_drift_ratio_negative_example :
    ¬ (0 ≤ (check_calibration_drift (-1) 1).drift_ratio) := by
  norm_num [check_calibration_drift]

/-- C9 (amended): for every non-negative `current_ece` and arbitrary
`baseline_ece`, the returned drift ratio is non-negative. -/
theorem check_calibration_drift_ratio_nonneg (current_ece baseline_ece : ℚ)
    (h : 0 ≤ current_ece) :
    0 ≤ (check_calibration_drift current_ece baseline_ece).drift_ratio := by
  have hb : 0 < (if baseline_ece ≤ 0 then (0.018 : ℚ) else baseline_ece) := by
    split_ifs with hb0
    · norm_num
    · linarith [not_le.mp hb0]
  simp only [check_calibration_drift]
  set b : ℚ := if baseline_ece ≤ 0 then (0.018 : ℚ) else baseline_ece with hbdef
  split_ifs <;> exact div_nonneg h hb.le

/-- Witness for C9's amended theorem at the baseline-vs-baseline input. -/
theorem check_calibration_drift_ratio_nonneg_witness :
    (0 : ℚ) ≤ 0.02 ∧ 0 ≤ (check_calibration_drift 0.02 0.018).drift_ratio :=
  ⟨by norm_num, check_calibration_drift_ratio_nonneg 0.02 0.018 (by norm_num)⟩

/-- Looking up a key right after storing it under that key finds the
stored record. -/
theorem lookup_cacheInsert (cache : CalibrationCache) (cluster_id : String)
    (st : CalibrationState) :
    List.lookup cluster_id (cacheInsert cache cluster_id st) = some st := by
  simp [cacheInsert, List.lookup]

/-- C7: `update(id, s, n)` followed by `get(id)` returns a record with
`score = s`, `sampleCount = n` and `isLearningMode = (n < 50)`, for any
score in `[0,1]` and non-negative sample count. -/
theorem update_then_get_roundtrip (cache : CalibrationCache) (now1 now2 : Nat)
    (cluster_id : String) (score : ℚ) (sample_count : Int)
    (h1 : 0 ≤ score) (h2 : score ≤ 1) (h3 : 0 ≤ sample_count) :
    ∃ st cache2,
      update_calibration_state cache now1 cluster_id score sample_count false =
        .ok (st, cache2) ∧
      (get_calibration_state cache2 now2 cluster_id).score = score ∧
      (get_calibration_state cache2 now2 cluster_id).sample_count = sample_count ∧
      ((get_calibration_state cache2 now2 cluster_id).is_learning_mode = true ↔
        sample_count < 50) := by
  refine ⟨⟨cluster_id, score, sample_count, now1, decide (sample_count < 50), false⟩,
    cacheInsert cache cluster_id
      ⟨cluster_id, score, sample_count, now1, decide (sample_count < 50), false⟩,
    ?_, ?_⟩
  · unfold update_calibration_state CalibrationState.make
    rw [if_pos ⟨h1, h2, h3⟩]
  · unfold get_calibration_state
    rw [lookup_cacheInsert]
    exact ⟨rfl, rfl, by simp⟩

/-- Witness for C7: round-trip at score 0.88, sample count 500. -/
theorem update_then_get_roundtrip_witness :
    (0 : ℚ) ≤ 0.88 ∧ (0.88 : ℚ) ≤ 1 ∧ (0 : Int) ≤ 500 ∧
    (∃ st cache2,
      update_calibration_state [] 0 "test-cluster" 0.88 500 false =
        .ok (st, cache2) ∧
      (get_calibration_state cache2 7 "test-cluster").score = 0.88 ∧
      (get_calibration_state cache2 7 "test-cluster").sample_count = 500 ∧
      ((get_calibration_state cache2 7 "test-cluster").is_learning_mode = true ↔
        (500 : Int) < 50)) :=
  ⟨by norm_num, by norm_num, by decide,
    update_then_get_roundtrip [] 0 7 "test-cluster" 0.88 500
      (by norm_num) (by norm_num) (by decide)⟩

/-- C8 counterexample: two synthesized default records for the same
unseen id created at clock values 0 and 1 are not field-equal — their
`last_updated` stamps differ, refuting "equal in every field, including
lastUpdated". -/
theorem get_calibration_state_default_times_differ :
    get_calibration_state [] 0 "never-seen-before" ≠
      get_calibration_state [] 1 "never-seen-before" := by
  intro h
  have hfield := congrArg CalibrationState.last_updated h
  simp [get_calibration_state] at hfield

/-- C8 (amended): two consecutive `get` calls on an unseen id each return
the conservative learning-mode default (score 0.5, sampleCount 0,
isLearningMode true, recalibrationNeeded false); the records agree on
every field except `lastUpdated`, which carries each call's own current
time. -/
theorem get_calibration_state_default_fields (cache : CalibrationCache)
    (t1 t2 : Nat) (cluster_id : String)
    (h : List.lookup cluster_id cache = none) :
    get_calibration_state cache t1 cluster_id =
      ⟨cluster_id, 0.5, 0, t1, true, false⟩ ∧
    get_calibration_state cache t2 cluster_id =
      ⟨cluster_id, 0.5, 0, t2, true, false⟩ := by
  unfold get_calibration_state
  rw [h]
  exact ⟨rfl, rfl⟩

/-- Witness for C8's amended theorem: defaults synthesized at times 5
and 9 on the empty cache. -/
theorem get_calibration_state_default_fields_witness :
    List.lookup "never-seen-before" ([] : CalibrationCache) = none ∧
    (get_calibration_state [] 5 "never-seen-before" =
        ⟨"never-seen-before", 0.5, 0, 5, true, false⟩ ∧
      get_calibration_state [] 9 "never-seen-before" =
        ⟨"never-seen-before", 0.5, 0, 9, true, false⟩) :=
  ⟨rfl, get_calibration_state_default_fields [] 5 9 "never-seen-before" rfl⟩

/-- Witness for C3: the thresholds evaluated at a concrete state with
score 0.72 and 500 samples. -/
theorem determine_action_scope_thresholds_witness :
    (50 : Int) ≤ (⟨"slurm-hpc", 0.72, 500, 0, false, false⟩ : CalibrationState).sample_count ∧
    (⟨"slurm-hpc", 0.72, 500, 0, false, false⟩ : CalibrationState).is_learning_mode = false ∧
    (determine_action_scope ⟨"slurm-hpc", 0.72, 500, 0, false, false⟩ = .NOTIFY ↔
      (0.60 : ℚ) < 0.72 ∧ (0.72 : ℚ) ≤ 0.85) :=
  ⟨by decide, by decide,
    (determine_action_scope_thresholds ⟨"slurm-hpc", 0.72, 500, 0, false, false⟩
      (by decide) (by decide)).2.1⟩

end VGAC

namespace VGAC

/-- C1: per gated request the requested action is executed via the tool
transport at most once, and exactly zero times when the resolved scope
is ESCALATE; in the ESCALATE case exactly one escalation call is made
and the outcome has `executed = false` with reason "Escalated to human
due to low calibration". -/
theorem execute_with_gating_action_at_most_once (cache : CalibrationCache)
    (now : Nat) (invoke_tool : String → PyVal → ToolResult)
    (cluster_id action : String) (parameters : PyVal) :
    (execute_with_gating cache now invoke_tool cluster_id action
        parameters).2.countP GateCall.isToolExec ≤ 1 ∧
    (determine_action_scope (get_calibration_state cache now cluster_id) =
        .ESCALATE →
      (execute_with_gating cache now invoke_tool cluster_id action
          parameters).2.countP GateCall.isToolExec = 0 ∧
      (execute_with_gating cache now invoke_tool cluster_id action
          parameters).2.countP GateCall.isEscalate = 1 ∧
      (execute_with_gating cache now invoke_tool cluster_id action
          parameters).1.executed = false ∧
      (execute_with_gating cache now invoke_tool cluster_id action
          parameters).1.reason =
        some "Escalated to human due to low calibration") := by
  simp only [execute_with_gating]
  split_ifs with hE hN
  · exact ⟨Nat.zero_le 1, fun _ => ⟨rfl, rfl, rfl, rfl⟩⟩
  · exact ⟨le_refl 1, fun hc => absurd hc hE⟩
  · exact ⟨le_refl 1, fun hc => absurd hc hE⟩

/-- Witness for C1: with a stored score of 0.45 over 200 samples the
scope is ESCALATE, the action is never executed, and exactly one
escalation call is observed. -/
theorem execute_with_gating_action_at_most_once_witness :
    determine_action_scope (get_calibration_state escalateTestCache 0
        "unknown-batch") = .ESCALATE ∧
    ((execute_with_gating escalateTestCache 0 constOkCollab "unknown-batch"
        "tool_requeue_job" (.dict [])).2.countP GateCall.isToolExec = 0 ∧
      (execute_with_gating escalateTestCache 0 constOkCollab "unknown-batch"
        "tool_requeue_job" (.dict [])).2.countP GateCall.isEscalate = 1 ∧
      (execute_with_gating escalateTestCache 0 constOkCollab "unknown-batch"
        "tool_requeue_job" (.dict [])).1.executed = false ∧
      (execute_with_gating escalateTestCache 0 constOkCollab "unknown-batch"
        "tool_requeue_job" (.dict [])).1.reason =
        some "Escalated to human due to low calibration") := by
  have hs : determine_action_scope (get_calibration_state escalateTestCache 0
      "unknown-batch") = .ESCALATE := by
    norm_num [determine_action_scope, get_calibration_state, escalateTestCache,
      List.lookup]
  exact ⟨hs, (execute_with_gating_action_at_most_once escalateTestCache 0
    constOkCollab "unknown-batch" "tool_requeue_job" (.dict [])).2 hs⟩

/-- C6: in the NOTIFY regime, the action is executed and the outcome
still reports `executed = true` and `notifiedHuman = true` even when
the subsequent notification call fails (collaborator returns
`success = false`); the executed action's result is returned unchanged
and both calls occur in order. -/
theorem execute_with_gating_notification_best_effort (cache : CalibrationCache)
    (now : Nat) (invoke_tool : String → PyVal → ToolResult)
    (cluster_id action : String) (parameters : PyVal)
    (hscope : determine_action_scope (get_calibration_state cache now
      cluster_id) = .NOTIFY)
    (hfail : (invoke_tool "tool_send_slack_notification"
      (notification_payload action)).success = false) :
    (execute_with_gating cache now invoke_tool cluster_id action
        parameters).1.executed = true ∧
    (execute_with_gating cache now invoke_tool cluster_id action
        parameters).1.notified_human = some true ∧
    (execute_with_gating cache now invoke_tool cluster_id action
        parameters).1.result = some (invoke_tool action parameters) ∧
    (execute_with_gating cache now invoke_tool cluster_id action
        parameters).2 =
      [.toolExec action parameters,
        .notify "tool_send_slack_notification" (notification_payload action)] := by
  have hne : determine_action_scope (get_calibration_state cache now
      cluster_id) ≠ .ESCALATE := by
    rw [hscope]
    decide
  simp only [execute_with_gating]
  rw [if_neg hne, if_pos hscope]
  exact ⟨rfl, rfl, rfl, rfl⟩

/-- Witness for C6: with a stored score of 0.72 over 500 samples and a
collaborator whose Slack tool fails, the gated execution still reports
the action executed and the human notified. -/
theorem execute_with_gating_notification_best_effort_witness :
    determine_action_scope (get_calibration_state notifyTestCache 0
        "slurm-hpc") = .NOTIFY ∧
    (notifyFailCollab "tool_send_slack_notification"
        (notification_payload "tool_requeue_job")).success = false ∧
    ((execute_with_gating notifyTestCache 0 notifyFailCollab "slurm-hpc"
        "tool_requeue_job" (.dict [])).1.executed = true ∧
      (execute_with_gating notifyTestCache 0 notifyFailCollab "slurm-hpc"
        "tool_requeue_job" (.dict [])).1.notified_human = some true ∧
      (execute_with_gating notifyTestCache 0 notifyFailCollab "slurm-hpc"
        "tool_requeue_job" (.dict [])).1.result =
        some (notifyFailCollab "tool_requeue_job" (.dict [])) ∧
      (execute_with_gating notifyTestCache 0 notifyFailCollab "slurm-hpc"
        "tool_requeue_job" (.dict [])).2 =
        [.toolExec "tool_requeue_job" (.dict []),
          .notify "tool_send_slack_notification"
            (notification_payload "tool_requeue_job")]) := by
  have hs : determine_action_scope (get_calibration_state notifyTestCache 0
      "slurm-hpc") = .NOTIFY := by
    norm_num [determine_action_scope, get_calibration_state, notifyTestCache,
      List.lookup]
  have hf : (notifyFailCollab "tool_send_slack_notification"
      (notification_payload "tool_requeue_job")).success = false := rfl
  exact ⟨hs, hf, execute_with_gating_notification_best_effort notifyTestCache 0
    notifyFailCollab "slurm-hpc" "tool_requeue_job" (.dict []) hs hf⟩

/-- The ECE-to-score transform always lands in `[0, 1]`. -/
theorem ece_to_calibration_score_unit (ece : ℚ) :
    0 ≤ ece_to_calibration_score ece ∧ ece_to_calibration_score ece ≤ 1 := by
  unfold ece_to_calibration_score
  constructor
  · exact le_trans (by norm_num) (le_max_left (0.0 : ℚ) _)
  · exact max_le (by norm_num) (le_trans (min_le_left _ _) (by norm_num))

/-- A valid update stores exactly the replacement record: score and
sample count as given, fresh timestamp, recomputed learning-mode flag,
and the given recalibration flag. -/
theorem update_calibration_state_ok (cache : CalibrationCache) (now : Nat)
    (cluster_id : String) (score : ℚ) (sample_count : Int) (rn : Bool)
    (h : 0 ≤ score ∧ score ≤ 1 ∧ 0 ≤ sample_count) :
    update_calibration_state cache now cluster_id score sample_count rn =
      .ok (⟨cluster_id, score, sample_count, now, decide (sample_count < 50), rn⟩,
        cacheInsert cache cluster_id
          ⟨cluster_id, score, sample_count, now, decide (sample_count < 50), rn⟩) := by
  unfold update_calibration_state CalibrationState.make
  rw [if_pos h]

/-- C10: an ordinary profile update (`_update_profile`, which omits the
`recalibration_needed` argument) stores `recalibrationNeeded = false`,
silently clearing a previously-set recalibration flag. -/
theorem update_profile_clears_recalibration_flag (cache : CalibrationCache)
    (now : Nat) (cluster_id : String) (metrics : ProfileMetrics)
    (st_old : CalibrationState)
    (hstored : List.lookup cluster_id cache = some st_old)
    (hflag : st_old.recalibration_needed = true)
    (hn : 0 ≤ metrics.sample_count.getD 0) :
    ∃ res cache2,
      _update_profile cache now cluster_id metrics = .ok (res, cache2) ∧
      ∃ st_new, List.lookup cluster_id cache2 = some st_new ∧
        st_new.recalibration_needed = false := by
  obtain ⟨hs0, hs1⟩ := ece_to_calibration_score_unit (metrics.ece.getD 0.1)
  have hupd := update_calibration_state_ok cache now cluster_id
    (ece_to_calibration_score (metrics.ece.getD 0.1)) (metrics.sample_count.getD 0)
    false ⟨hs0, hs1, hn⟩
  unfold _update_profile
  simp only [hupd]
  exact ⟨_, _, rfl, _, lookup_cacheInsert cache cluster_id _, rfl⟩

/-- Witness for C10: a cluster flagged for recalibration loses the flag
after a profile update with fresh metrics. -/
theorem update_profile_clears_recalibration_flag_witness :
    List.lookup "recal-cluster" flaggedTestCache =
      some ⟨"recal-cluster", 0.5, 100, 0, false, true⟩ ∧
    (⟨"recal-cluster", 0.5, 100, 0, false, true⟩ :
      CalibrationState).recalibration_needed = true ∧
    (0 : Int) ≤ (ProfileMetrics.mk (some 0.05) (some 200)).sample_count.getD 0 ∧
    (∃ res cache2,
      _update_profile flaggedTestCache 1 "recal-cluster" ⟨some 0.05, some 200⟩ =
        .ok (res, cache2) ∧
      ∃ st_new, List.lookup "recal-cluster" cache2 = some st_new ∧
        st_new.recalibration_needed = false) := by
  refine ⟨rfl, rfl, by decide, ?_⟩
  exact update_profile_clears_recalibration_flag flaggedTestCache 1
    "recal-cluster" ⟨some 0.05, some 200⟩ ⟨"recal-cluster", 0.5, 100, 0, false, true⟩
    rfl rfl (by decide)

end VGAC
